import Mathlib

/-
Verification of the boundary-tolerance evaluation kernel
(Core/include/Acts/Surfaces/BoundaryTolerance.hpp).

Scalars (C++ double) are modelled as rationals; the 2-vector and 2x2
matrix types are modelled concretely.  The named constructors, the
Chi2BoundParams storage and its weightMatrix view are translated from
the header.  The out-of-line member functions (classification
predicates, accessors, toleranceMode, hasMetric, getMetric,
isTolerated) have no definition in the available sources; they are
modelled from the specification, as marked on each definition.
-/

namespace Acts

/-- Error conditions of the kernel: construction-time validation failure,
accessor/metric use against the wrong variant, and evaluation of a
Cartesian-mode policy without a Jacobian. -/
inductive BTError where
  | invalidArgument
  | typeMismatch
  | missingTransform
deriving DecidableEq, Repr

/-- 2-component vector (Acts::Vector2), components as rationals. -/
abbrev Vector2 := ℚ × ℚ

/-- 2x2 matrix (Acts::SquareMatrix2); field mn is the entry at row m,
column n. -/
structure SquareMatrix2 where
  m00 : ℚ
  m01 : ℚ
  m10 : ℚ
  m11 : ℚ
deriving DecidableEq, Repr

/-- The 2x2 identity matrix. -/
def SquareMatrix2.identity : SquareMatrix2 := ⟨1, 0, 0, 1⟩

/-- Matrix transpose. -/
def SquareMatrix2.transpose (M : SquareMatrix2) : SquareMatrix2 :=
  ⟨M.m00, M.m10, M.m01, M.m11⟩

/-- Matrix-matrix product. -/
def SquareMatrix2.mul (A B : SquareMatrix2) : SquareMatrix2 :=
  ⟨A.m00 * B.m00 + A.m01 * B.m10, A.m00 * B.m01 + A.m01 * B.m11,
   A.m10 * B.m00 + A.m11 * B.m10, A.m10 * B.m01 + A.m11 * B.m11⟩

/-- Matrix-vector product. -/
def SquareMatrix2.mulVec (M : SquareMatrix2) (v : Vector2) : Vector2 :=
  (M.m00 * v.1 + M.m01 * v.2, M.m10 * v.1 + M.m11 * v.2)

/-- Dot product of 2-vectors. -/
def dot (a b : Vector2) : ℚ := a.1 * b.1 + a.2 * b.2

/-- Quadratic form v^T M v. -/
def quadForm (M : SquareMatrix2) (v : Vector2) : ℚ := dot v (M.mulVec v)

/-- Parameters of the AbsoluteBound variant (tolerance0, tolerance1). -/
structure AbsoluteBoundParams where
  tolerance0 : ℚ
  tolerance1 : ℚ
deriving DecidableEq, Repr

/-- Parameters of the AbsoluteCartesian variant (tolerance0, tolerance1). -/
structure AbsoluteCartesianParams where
  tolerance0 : ℚ
  tolerance1 : ℚ
deriving DecidableEq, Repr

/-- Parameters of the AbsoluteEuclidean variant (single tolerance). -/
structure AbsoluteEuclideanParams where
  tolerance : ℚ
deriving DecidableEq, Repr

/-- The flat 4-scalar storage std::array of double with 4 entries used by
Chi2BoundParams for the weight matrix. -/
structure Weight4 where
  w0 : ℚ
  w1 : ℚ
  w2 : ℚ
  w3 : ℚ
deriving DecidableEq, Repr

/-- Parameters of the Chi2Bound variant: maxChi2 and the weight matrix
packed as 4 scalars. -/
structure Chi2BoundParams where
  maxChi2 : ℚ
  weight : Weight4
deriving DecidableEq, Repr

/-- The Eigen::Map of SquareMatrix2 view over the flat array: Eigen default
storage is column-major, so data[0], data[1], data[2], data[3] are the
entries (0,0), (1,0), (0,1), (1,1). -/
def Chi2BoundParams.weightMatrix (p : Chi2BoundParams) : SquareMatrix2 :=
  ⟨p.weight.w0, p.weight.w2, p.weight.w1, p.weight.w3⟩

/-- Writing a matrix W through the same column-major map, i.e. the effect
of the assignment tolerance.weightMatrix() = weight in the Chi2Bound
constructor. -/
def packColMajor (W : SquareMatrix2) : Weight4 :=
  ⟨W.m00, W.m10, W.m01, W.m11⟩

/-- The variant-like boundary tolerance type: exactly one of the six
parameter sets is active. -/
inductive BoundaryTolerance where
  | infiniteP : BoundaryTolerance
  | noneP : BoundaryTolerance
  | absoluteBoundP : AbsoluteBoundParams → BoundaryTolerance
  | absoluteCartesianP : AbsoluteCartesianParams → BoundaryTolerance
  | absoluteEuclideanP : AbsoluteEuclideanParams → BoundaryTolerance
  | chi2BoundP : Chi2BoundParams → BoundaryTolerance
deriving DecidableEq, Repr

/-- Named constructor Infinite(): no boundary check (noexcept). -/
def BoundaryTolerance.Infinite : BoundaryTolerance := .infiniteP

/-- Named constructor None(): exact boundary check (noexcept). -/
def BoundaryTolerance.None : BoundaryTolerance := .noneP

/-- Named constructor AbsoluteBound(tolerance0, tolerance1): throws
invalid_argument when either tolerance is negative. -/
def BoundaryTolerance.AbsoluteBound (tolerance0 tolerance1 : ℚ) :
    Except BTError BoundaryTolerance :=
  if tolerance0 < 0 ∨ tolerance1 < 0 then
    .error .invalidArgument
  else
    .ok (.absoluteBoundP ⟨tolerance0, tolerance1⟩)

/-- Named constructor AbsoluteCartesian(tolerance0, tolerance1): throws
invalid_argument when either tolerance is negative, and also when
(tolerance0 == 0) differs from (tolerance1 == 0). -/
def BoundaryTolerance.AbsoluteCartesian (tolerance0 tolerance1 : ℚ) :
    Except BTError BoundaryTolerance :=
  if tolerance0 < 0 ∨ tolerance1 < 0 then
    .error .invalidArgument
  else if (decide (tolerance0 = 0)) != (decide (tolerance1 = 0)) then
    .error .invalidArgument
  else
    .ok (.absoluteCartesianP ⟨tolerance0, tolerance1⟩)

/-- Named constructor AbsoluteEuclidean(tolerance): noexcept, no
validation. -/
def BoundaryTolerance.AbsoluteEuclidean (tolerance : ℚ) : BoundaryTolerance :=
  .absoluteEuclideanP ⟨tolerance⟩

/-- Named constructor Chi2Bound(weight, maxChi2): noexcept, no validation;
stores maxChi2 and writes the weight matrix through the column-major
map into the flat array. -/
def BoundaryTolerance.Chi2Bound (weight : SquareMatrix2) (maxChi2 : ℚ) :
    BoundaryTolerance :=
  .chi2BoundP ⟨maxChi2, packColMajor weight⟩

/-- The ToleranceMode enumeration: Extend, None, Shrink. -/
inductive ToleranceMode where
  | Extend
  | None
  | Shrink
deriving DecidableEq, Repr

namespace BoundaryTolerance

/-- Modelled from the spec: isInfinite (member body not in the available
sources) reports exact membership in the Infinite variant. -/
def isInfinite : BoundaryTolerance → Bool
  | .infiniteP => true
  | _ => false

/-- Modelled from the spec: isNone (member body not in the available
sources) reports exact membership in the None variant. -/
def isNone : BoundaryTolerance → Bool
  | .noneP => true
  | _ => false

/-- Modelled from the spec: hasAbsoluteBound(isCartesian) (member body not
in the available sources) is true if the active variant is AbsoluteBound,
or if isCartesian is true and the active variant is AbsoluteCartesian. -/
def hasAbsoluteBound (bt : BoundaryTolerance) (isCartesian : Bool) : Bool :=
  match bt with
  | .absoluteBoundP _ => true
  | .absoluteCartesianP _ => isCartesian
  | _ => false

/-- Modelled from the spec: hasAbsoluteCartesian (member body not in the
available sources) reports exact membership in the AbsoluteCartesian
variant. -/
def hasAbsoluteCartesian : BoundaryTolerance → Bool
  | .absoluteCartesianP _ => true
  | _ => false

/-- Modelled from the spec: hasAbsoluteEuclidean (member body not in the
available sources) reports exact membership in the AbsoluteEuclidean
variant. -/
def hasAbsoluteEuclidean : BoundaryTolerance → Bool
  | .absoluteEuclideanP _ => true
  | _ => false

/-- Modelled from the spec: hasChi2Bound (member body not in the available
sources) reports exact membership in the Chi2Bound variant. -/
def hasChi2Bound : BoundaryTolerance → Bool
  | .chi2BoundP _ => true
  | _ => false

/-- Modelled from the spec: toleranceMode (member body not in the available
sources). Infinite extends; None is exact; the absolute variants are
exact when both stored tolerances are zero and extend otherwise; the
Euclidean and chi-squared variants classify by the sign of the stored
tolerance and of maxChi2. -/
def toleranceMode : BoundaryTolerance → ToleranceMode
  | .infiniteP => .Extend
  | .noneP => .None
  | .absoluteBoundP p =>
      if p.tolerance0 = 0 ∧ p.tolerance1 = 0 then .None else .Extend
  | .absoluteCartesianP p =>
      if p.tolerance0 = 0 ∧ p.tolerance1 = 0 then .None else .Extend
  | .absoluteEuclideanP p =>
      if p.tolerance = 0 then .None
      else if 0 < p.tolerance then .Extend
      else .Shrink
  | .chi2BoundP p =>
      if p.maxChi2 = 0 then .None
      else if 0 < p.maxChi2 then .Extend
      else .Shrink

/-- Modelled from the spec: asAbsoluteBound(isCartesian) (member body not
in the available sources) returns the AbsoluteBound parameters; when the
active variant is AbsoluteCartesian and isCartesian is true, its
parameters are reinterpreted as bound-space tolerances; otherwise the
access fails with TypeMismatch. -/
def asAbsoluteBound (bt : BoundaryTolerance) (isCartesian : Bool) :
    Except BTError AbsoluteBoundParams :=
  match bt with
  | .absoluteBoundP p => .ok p
  | .absoluteCartesianP p =>
      if isCartesian then .ok ⟨p.tolerance0, p.tolerance1⟩
      else .error .typeMismatch
  | _ => .error .typeMismatch

/-- Modelled from the spec: asAbsoluteCartesian (member body not in the
available sources) returns the AbsoluteCartesian parameters, failing with
TypeMismatch on any other variant. -/
def asAbsoluteCartesian : BoundaryTolerance → Except BTError AbsoluteCartesianParams
  | .absoluteCartesianP p => .ok p
  | _ => .error .typeMismatch

/-- Modelled from the spec: asAbsoluteEuclidean (member body not in the
available sources) returns the AbsoluteEuclidean parameters, failing with
TypeMismatch on any other variant. -/
def asAbsoluteEuclidean : BoundaryTolerance → Except BTError AbsoluteEuclideanParams
  | .absoluteEuclideanP p => .ok p
  | _ => .error .typeMismatch

/-- Modelled from the spec: asChi2Bound (member body not in the available
sources) returns the Chi2Bound parameters, failing with TypeMismatch on
any other variant. -/
def asChi2Bound : BoundaryTolerance → Except BTError Chi2BoundParams
  | .chi2BoundP p => .ok p
  | _ => .error .typeMismatch

/-- Modelled from the spec: asAbsoluteBoundOpt(isCartesian) (member body
not in the available sources) is asAbsoluteBound returning an empty
optional instead of failing. -/
def asAbsoluteBoundOpt (bt : BoundaryTolerance) (isCartesian : Bool) :
    Option AbsoluteBoundParams :=
  match bt.asAbsoluteBound isCartesian with
  | .ok p => some p
  | .error _ => Option.none

/-- Modelled from the spec: hasMetric(hasJacobian) (member body not in the
available sources). Infinite, None and AbsoluteBound have no metric;
AbsoluteCartesian has one only when a Jacobian is available;
AbsoluteEuclidean and Chi2Bound always have one. -/
def hasMetric (bt : BoundaryTolerance) (hasJacobian : Bool) : Bool :=
  match bt with
  | .absoluteCartesianP _ => hasJacobian
  | .absoluteEuclideanP _ => true
  | .chi2BoundP _ => true
  | _ => false

/-- Modelled from the spec: getMetric(jacobianOpt) (member body not in the
available sources). AbsoluteEuclidean without a Jacobian yields the
identity; AbsoluteEuclidean or AbsoluteCartesian with a Jacobian J yields
J^T * J; Chi2Bound yields the stored weight matrix ignoring any Jacobian;
every case where hasMetric would report false fails with TypeMismatch. -/
def getMetric (bt : BoundaryTolerance) (jacobianOpt : Option SquareMatrix2) :
    Except BTError SquareMatrix2 :=
  match bt, jacobianOpt with
  | .absoluteEuclideanP _, Option.none => .ok SquareMatrix2.identity
  | .absoluteEuclideanP _, some J => .ok (J.transpose.mul J)
  | .absoluteCartesianP _, some J => .ok (J.transpose.mul J)
  | .chi2BoundP p, _ => .ok p.weightMatrix
  | _, _ => .error .typeMismatch

/-- Exact characterization over the rationals of the real-number comparison
sqrt q <= t for a non-negative quadratic form value q: it holds iff t is
non-negative and q <= t * t. -/
def sqrtLe (q t : ℚ) : Bool :=
  decide (0 ≤ t) && decide (q ≤ t * t)

/-- Modelled from the spec: isTolerated(distance, jacobianOpt) (member body
not in the available sources). Infinite always tolerates; None tolerates
iff both residual components are non-positive; AbsoluteBound compares the
absolute residual components per axis with the stored tolerances;
AbsoluteCartesian requires a Jacobian (failing with MissingTransform
otherwise) and applies the per-axis absolute comparison to the
transformed residual J * distance; AbsoluteEuclidean compares the square
root of the generalized squared distance under the metric of getMetric
(identity without a Jacobian, J^T * J with one) with the stored
tolerance; Chi2Bound compares distance^T * weight * distance with
maxChi2. -/
def isTolerated (bt : BoundaryTolerance) (distance : Vector2)
    (jacobianOpt : Option SquareMatrix2) : Except BTError Bool :=
  match bt with
  | .infiniteP => .ok true
  | .noneP => .ok (decide (distance.1 ≤ 0) && decide (distance.2 ≤ 0))
  | .absoluteBoundP p =>
      .ok (decide (|distance.1| ≤ p.tolerance0) &&
           decide (|distance.2| ≤ p.tolerance1))
  | .absoluteCartesianP p =>
      match jacobianOpt with
      | Option.none => .error .missingTransform
      | some J =>
          .ok (decide (|(J.mulVec distance).1| ≤ p.tolerance0) &&
               decide (|(J.mulVec distance).2| ≤ p.tolerance1))
  | .absoluteEuclideanP p =>
      match jacobianOpt with
      | Option.none => .ok (sqrtLe (quadForm SquareMatrix2.identity distance) p.tolerance)
      | some J => .ok (sqrtLe (quadForm (J.transpose.mul J) distance) p.tolerance)
  | .chi2BoundP p => .ok (decide (quadForm p.weightMatrix distance ≤ p.maxChi2))

/-- The const-qualified member call, made explicit as state passing: the
call yields the result together with the instance state after the call. -/
def isToleratedRun (bt : BoundaryTolerance) (distance : Vector2)
    (jacobianOpt : Option SquareMatrix2) :
    Except BTError Bool × BoundaryTolerance :=
  (bt.isTolerated distance jacobianOpt, bt)

end BoundaryTolerance

/-- Successful-result test for Except values of the kernel. -/
def btOk {α : Type} : Except BTError α → Bool
  | .ok _ => true
  | .error _ => false

/-- Number of the six variant predicates (with hasAbsoluteBound taken at
its default argument false) that hold on an instance. -/
def variantCount (bt : BoundaryTolerance) : ℕ :=
  (cond bt.isInfinite 1 0) + (cond bt.isNone 1 0) +
  (cond (bt.hasAbsoluteBound false) 1 0) + (cond bt.hasAbsoluteCartesian 1 0) +
  (cond bt.hasAbsoluteEuclidean 1 0) + (cond bt.hasChi2Bound 1 0)

/-- Claim C1: for the None variant, isTolerated(residual, jacobianOpt)
returns true iff both components of the residual are at most 0, for every
residual and every optional Jacobian; in particular the zero residual is
tolerated and the residual (10^-9, 0) is not, for any optional Jacobian. -/
theorem C1_none_isTolerated :
    (∀ (r : Vector2) (j : Option SquareMatrix2),
      BoundaryTolerance.None.isTolerated r j = .ok true ↔ r.1 ≤ 0 ∧ r.2 ≤ 0) ∧
    (∀ j : Option SquareMatrix2,
      BoundaryTolerance.None.isTolerated (0, 0) j = .ok true) ∧
    (∀ j : Option SquareMatrix2,
      BoundaryTolerance.None.isTolerated (1 / 1000000000, 0) j = .ok false) := by
  refine ⟨fun r j => ?_, fun j => ?_, fun j => ?_⟩
  · simp [BoundaryTolerance.None, BoundaryTolerance.isTolerated]
  · simp [BoundaryTolerance.None, BoundaryTolerance.isTolerated]
  · simp [BoundaryTolerance.None, BoundaryTolerance.isTolerated]

/-- Claim C2: for the AbsoluteCartesian variant, isTolerated fails with
MissingTransform whenever the Jacobian is absent, and with a Jacobian J it
returns true iff both components of J * residual are within the stored
tolerances in absolute value. -/
theorem C2_absoluteCartesian_isTolerated :
    (∀ (t0 t1 : ℚ) (r : Vector2),
      (BoundaryTolerance.absoluteCartesianP ⟨t0, t1⟩).isTolerated r Option.none
        = .error .missingTransform) ∧
    (∀ (t0 t1 : ℚ) (r : Vector2) (J : SquareMatrix2),
      (BoundaryTolerance.absoluteCartesianP ⟨t0, t1⟩).isTolerated r (some J)
        = .ok true ↔
        |(J.mulVec r).1| ≤ t0 ∧ |(J.mulVec r).2| ≤ t1) := by
  refine ⟨fun t0 t1 r => rfl, fun t0 t1 r J => ?_⟩
  simp [BoundaryTolerance.isTolerated]

/-- Claim C3: getMetric yields the identity for AbsoluteEuclidean without a
Jacobian, J^T * J for AbsoluteEuclidean and AbsoluteCartesian with a
Jacobian J, and the stored weight matrix, ignoring any supplied Jacobian,
for Chi2Bound. -/
theorem C3_getMetric :
    (∀ t : ℚ,
      (BoundaryTolerance.absoluteEuclideanP ⟨t⟩).getMetric Option.none
        = .ok SquareMatrix2.identity) ∧
    (∀ (t : ℚ) (J : SquareMatrix2),
      (BoundaryTolerance.absoluteEuclideanP ⟨t⟩).getMetric (some J)
        = .ok (J.transpose.mul J)) ∧
    (∀ (t0 t1 : ℚ) (J : SquareMatrix2),
      (BoundaryTolerance.absoluteCartesianP ⟨t0, t1⟩).getMetric (some J)
        = .ok (J.transpose.mul J)) ∧
    (∀ (p : Chi2BoundParams) (jOpt : Option SquareMatrix2),
      (BoundaryTolerance.chi2BoundP p).getMetric jOpt = .ok p.weightMatrix) := by
  refine ⟨fun t => rfl, fun t J => rfl, fun t0 t1 J => rfl, fun p jOpt => ?_⟩
  cases jOpt <;> rfl

/-- Claim C4: every instance reachable through the AbsoluteBound or
AbsoluteCartesian named constructor has toleranceMode None exactly when
both supplied tolerances are zero, Extend otherwise, and never Shrink. -/
theorem C4_toleranceMode_absolute :
    ∀ (t0 t1 : ℚ) (bt : BoundaryTolerance),
      (BoundaryTolerance.AbsoluteBound t0 t1 = .ok bt ∨
       BoundaryTolerance.AbsoluteCartesian t0 t1 = .ok bt) →
      (bt.toleranceMode = .None ↔ (t0 = 0 ∧ t1 = 0)) ∧
      (bt.toleranceMode = .Extend ↔ ¬(t0 = 0 ∧ t1 = 0)) ∧
      bt.toleranceMode ≠ .Shrink := by
  intro t0 t1 bt h
  have hbt : bt = .absoluteBoundP ⟨t0, t1⟩ ∨ bt = .absoluteCartesianP ⟨t0, t1⟩ := by
    rcases h with h | h
    · unfold BoundaryTolerance.AbsoluteBound at h
      split at h
      · exact absurd h (by simp)
      · exact Or.inl (Except.ok.inj h).symm
    · unfold BoundaryTolerance.AbsoluteCartesian at h
      split at h
      · exact absurd h (by simp)
      · split at h
        · exact absurd h (by simp)
        · exact Or.inr (Except.ok.inj h).symm
  rcases hbt with hbt | hbt <;> subst hbt <;>
    simp only [BoundaryTolerance.toleranceMode] <;> split <;> simp_all

/-- Witness for C4 at the concrete inputs t0 = 0, t1 = 2 through
AbsoluteBound: the mode is Extend and is not None or Shrink. -/
theorem C4_toleranceMode_absolute_witness :
    ((BoundaryTolerance.absoluteBoundP ⟨0, 2⟩).toleranceMode = .None
        ↔ ((0 : ℚ) = 0 ∧ (2 : ℚ) = 0)) ∧
    ((BoundaryTolerance.absoluteBoundP ⟨0, 2⟩).toleranceMode = .Extend
        ↔ ¬((0 : ℚ) = 0 ∧ (2 : ℚ) = 0)) ∧
    (BoundaryTolerance.absoluteBoundP ⟨0, 2⟩).toleranceMode ≠ .Shrink :=
  C4_toleranceMode_absolute 0 2 (.absoluteBoundP ⟨0, 2⟩)
    (Or.inl (by simp [BoundaryTolerance.AbsoluteBound]))

/-- Claim C5: AbsoluteCartesian(t0, t1) fails with InvalidArgument exactly
when a tolerance is negative or exactly one of the two is zero, and
otherwise succeeds storing (t0, t1); in particular (0, 1) is rejected
while (0, 0) and (2, 3) are accepted. -/
theorem C5_absoluteCartesian_ctor :
    (∀ t0 t1 : ℚ,
      BoundaryTolerance.AbsoluteCartesian t0 t1 = .error .invalidArgument ↔
        (t0 < 0 ∨ t1 < 0 ∨ ¬((t0 = 0) ↔ (t1 = 0)))) ∧
    (∀ t0 t1 : ℚ, 0 ≤ t0 → 0 ≤ t1 → ((t0 = 0) ↔ (t1 = 0)) →
      BoundaryTolerance.AbsoluteCartesian t0 t1
        = .ok (.absoluteCartesianP ⟨t0, t1⟩)) ∧
    BoundaryTolerance.AbsoluteCartesian 0 1 = .error .invalidArgument ∧
    BoundaryTolerance.AbsoluteCartesian 0 0
      = .ok (.absoluteCartesianP ⟨0, 0⟩) ∧
    BoundaryTolerance.AbsoluteCartesian 2 3
      = .ok (.absoluteCartesianP ⟨2, 3⟩) := by
  have key : ∀ t0 t1 : ℚ,
      BoundaryTolerance.AbsoluteCartesian t0 t1 = .error .invalidArgument ↔
        (t0 < 0 ∨ t1 < 0 ∨ ¬((t0 = 0) ↔ (t1 = 0))) := by
    intro t0 t1
    unfold BoundaryTolerance.AbsoluteCartesian
    split
    · simp_all [iff_iff_implies_and_implies]
      tauto
    · split <;> rename_i hneg hzero
      · simp_all [iff_iff_implies_and_implies]
      · simp_all [iff_iff_implies_and_implies]
  refine ⟨key, fun t0 t1 h0 h1 hz => ?_, ?_, ?_, ?_⟩
  · unfold BoundaryTolerance.AbsoluteCartesian
    split <;> rename_i hneg
    · rcases hneg with hneg | hneg <;> linarith
    · split <;> rename_i hzero
      · simp only [bne_iff_ne, ne_eq, decide_eq_decide] at hzero
        exact absurd hz hzero
      · rfl
  · simp [BoundaryTolerance.AbsoluteCartesian]
  · simp [BoundaryTolerance.AbsoluteCartesian]
  · simp [BoundaryTolerance.AbsoluteCartesian]

/-- Witness for C5 at the concrete inputs (2, 3): construction succeeds
and stores the pair. -/
theorem C5_absoluteCartesian_ctor_witness :
    BoundaryTolerance.AbsoluteCartesian 2 3
      = .ok (.absoluteCartesianP ⟨2, 3⟩) :=
  C5_absoluteCartesian_ctor.2.1 2 3 (by norm_num) (by norm_num) (by norm_num)

/-- Claim C6: AbsoluteBound(t0, t1) fails with InvalidArgument exactly when
t0 < 0 or t1 < 0, and succeeds storing exactly (t0, t1) when both are
non-negative. -/
theorem C6_absoluteBound_ctor :
    (∀ t0 t1 : ℚ,
      BoundaryTolerance.AbsoluteBound t0 t1 = .error .invalidArgument ↔
        (t0 < 0 ∨ t1 < 0)) ∧
    (∀ t0 t1 : ℚ, 0 ≤ t0 → 0 ≤ t1 →
      BoundaryTolerance.AbsoluteBound t0 t1
        = .ok (.absoluteBoundP ⟨t0, t1⟩)) := by
  constructor
  · intro t0 t1
    unfold BoundaryTolerance.AbsoluteBound
    split <;> simp_all
  · intro t0 t1 h0 h1
    unfold BoundaryTolerance.AbsoluteBound
    split <;> rename_i hneg
    · rcases hneg with hneg | hneg <;> linarith
    · rfl

/-- Witness for C6 at the concrete inputs (1, 2): construction succeeds
and stores the pair. -/
theorem C6_absoluteBound_ctor_witness :
    BoundaryTolerance.AbsoluteBound 1 2 = .ok (.absoluteBoundP ⟨1, 2⟩) :=
  C6_absoluteBound_ctor.2 1 2 (by norm_num) (by norm_num)

/-- Claim C7: AbsoluteEuclidean(t) and Chi2Bound(weight, maxChi2) are total:
for every input, including negative tolerances, arbitrary weight matrices
and negative maxChi2, construction succeeds and yields the respective
variant holding the supplied values. -/
theorem C7_unvalidated_ctors :
    (∀ t : ℚ, ∃ p : AbsoluteEuclideanParams,
      BoundaryTolerance.AbsoluteEuclidean t = .absoluteEuclideanP p ∧
      p.tolerance = t) ∧
    (∀ (W : SquareMatrix2) (m : ℚ), ∃ p : Chi2BoundParams,
      BoundaryTolerance.Chi2Bound W m = .chi2BoundP p ∧ p.maxChi2 = m) :=
  ⟨fun t => ⟨⟨t⟩, rfl, rfl⟩, fun W m => ⟨⟨m, packColMajor W⟩, rfl, rfl⟩⟩

/-- Claim C8: on every instance exactly one of the six variant predicates
holds (hasAbsoluteBound taken at its default argument false); each as*
accessor succeeds exactly when its predicate holds and fails with
TypeMismatch otherwise; and hasAbsoluteBound(isCartesian) holds iff the
active variant is AbsoluteBound, or isCartesian is true and the active
variant is AbsoluteCartesian. -/
theorem C8_variant_roundtrip :
    ∀ bt : BoundaryTolerance,
      variantCount bt = 1 ∧
      btOk (bt.asAbsoluteBound false) = bt.hasAbsoluteBound false ∧
      btOk bt.asAbsoluteCartesian = bt.hasAbsoluteCartesian ∧
      btOk bt.asAbsoluteEuclidean = bt.hasAbsoluteEuclidean ∧
      btOk bt.asChi2Bound = bt.hasChi2Bound ∧
      (bt.hasAbsoluteBound false = false →
        bt.asAbsoluteBound false = .error .typeMismatch) ∧
      (bt.hasAbsoluteCartesian = false →
        bt.asAbsoluteCartesian = .error .typeMismatch) ∧
      (bt.hasAbsoluteEuclidean = false →
        bt.asAbsoluteEuclidean = .error .typeMismatch) ∧
      (bt.hasChi2Bound = false →
        bt.asChi2Bound = .error .typeMismatch) ∧
      (∀ c : Bool, bt.hasAbsoluteBound c = true ↔
        ((∃ p, bt = .absoluteBoundP p) ∨
         (c = true ∧ ∃ p, bt = .absoluteCartesianP p))) := by
  intro bt
  cases bt <;>
    simp [variantCount, btOk,
      BoundaryTolerance.isInfinite, BoundaryTolerance.isNone,
      BoundaryTolerance.hasAbsoluteBound, BoundaryTolerance.hasAbsoluteCartesian,
      BoundaryTolerance.hasAbsoluteEuclidean, BoundaryTolerance.hasChi2Bound,
      BoundaryTolerance.asAbsoluteBound, BoundaryTolerance.asAbsoluteCartesian,
      BoundaryTolerance.asAbsoluteEuclidean, BoundaryTolerance.asChi2Bound]

/-- Witness for C8 on the concrete instance Infinite: every as* accessor
fails with TypeMismatch. -/
theorem C8_variant_roundtrip_witness :
    BoundaryTolerance.Infinite.asChi2Bound = .error .typeMismatch :=
  (C8_variant_roundtrip BoundaryTolerance.Infinite).2.2.2.2.2.2.2.2.1 rfl

/-- Claim C9: evaluation of isTolerated is a pure, deterministic function:
modelling the const-qualified call as state passing, the call leaves the
instance unchanged, and a second call on the post-call state with the
same residual and optional Jacobian yields the same result. -/
theorem C9_isTolerated_pure :
    ∀ (bt : BoundaryTolerance) (r : Vector2) (j : Option SquareMatrix2),
      (BoundaryTolerance.isToleratedRun bt r j).2 = bt ∧
      (BoundaryTolerance.isToleratedRun bt r j).1 =
        (BoundaryTolerance.isToleratedRun
          ((BoundaryTolerance.isToleratedRun bt r j).2) r j).1 :=
  fun _ _ _ => ⟨rfl, rfl⟩

/-- Claim C10: Chi2Bound(W, m) stores Chi2BoundParams whose maxChi2 is m
and whose weightMatrix view over the flat 4-scalar array reproduces W
exactly: the column-major pack and the matrix map lose no information. -/
theorem C10_chi2_weight_roundtrip :
    ∀ (W : SquareMatrix2) (m : ℚ), ∃ p : Chi2BoundParams,
      BoundaryTolerance.Chi2Bound W m = .chi2BoundP p ∧
      p.maxChi2 = m ∧ p.weightMatrix = W := by
  intro W m
  exact ⟨⟨m, packColMajor W⟩, rfl, rfl, by cases W; rfl⟩

end Acts
